import Mathlib

/-!
Shallow embedding of the agentswarm coordination core (health monitor,
quota probe, daemon state machine, supervisor control plane), translated
from the JavaScript sources, together with theorems settling the frozen
claims about the natural-language specification.

Conventions of the embedding:
* timestamps (`Date.now()`) are natural numbers of milliseconds, passed
  explicitly as a `now` argument to every operation that reads the clock;
* JavaScript `Map`s are association lists `List (String × _)` in insertion
  order (`Map.set` on a fresh key appends, `Map.delete` filters);
* fallible or guarded methods return the unchanged state where the source
  returns early;
* emitted events are returned as explicit lists alongside the new state.
-/

namespace AgentSwarm

/-! ## Health monitor (src `health-monitor.js`) -/

/-- Health status of a tracked agent: `'alive' | 'unresponsive' | 'dead'`. -/
inductive HStatus where
  | alive
  | unresponsive
  | dead
deriving DecidableEq, Repr

/-- One per-agent health record (`AgentHealth` in the source). Resource
stats are rationals since `ps` reports fractional megabytes / percents. -/
structure AgentHealth where
  lastSeen : Nat
  status : HStatus
  consecutiveMisses : Nat
  pid : Option Nat
  memoryMb : Option ℚ
  cpuPct : Option ℚ
  uptimeSeconds : Nat
  registeredAt : Nat
deriving DecidableEq, Repr

/-- Static configuration of the monitor (constructor fields). -/
structure HMConfig where
  heartbeatIntervalMs : Nat
  missThreshold : Nat
  memoryLimitMb : ℚ
  cpuLimitPct : ℚ
deriving DecidableEq, Repr

/-- Alerts the monitor can emit, in structured form: the `unresponsive`
alert carries the data interpolated into its `detail` string. -/
inductive Alert where
  | unresponsiveAlert (agentId : String) (missed threshold : Nat)
  | memoryLimit (agentId : String)
  | cpuLimit (agentId : String)
deriving DecidableEq, Repr

/-- Result of `ps`-sampling one pid (`_queryProcessStats`); `none` when the
probe fails. Treated as an oracle input since it is an OS call. -/
structure PStats where
  memoryMb : ℚ
  cpuPct : ℚ
deriving DecidableEq, Repr

/-- Map of tracked agents, in registration order. -/
abbrev HealthTable := List (String × AgentHealth)

/-- Key lookup in an association list (JavaScript `Map.get`). -/
def alookup {β : Type} (t : List (String × β)) (id : String) : Option β :=
  (t.find? (fun p => p.1 = id)).map (fun p => p.2)

/-- Update the value at a key, leaving other entries alone. -/
def aupdate {β : Type} (t : List (String × β)) (id : String) (f : β → β) :
    List (String × β) :=
  t.map (fun p => if p.1 = id then (p.1, f p.2) else p)

/-- `register(agentId, pid)`: fresh record, `alive`, zero misses. -/
def HealthMonitor.register (t : HealthTable) (agentId : String)
    (pid : Option Nat) (now : Nat) : HealthTable :=
  if (alookup t agentId).isSome then
    aupdate t agentId (fun _ =>
      { lastSeen := now, status := .alive, consecutiveMisses := 0, pid,
        memoryMb := none, cpuPct := none, uptimeSeconds := 0,
        registeredAt := now })
  else
    t ++ [(agentId,
      { lastSeen := now, status := .alive, consecutiveMisses := 0, pid,
        memoryMb := none, cpuPct := none, uptimeSeconds := 0,
        registeredAt := now })]

/-- `unregister(agentId)`: drop the record. -/
def HealthMonitor.unregister (t : HealthTable) (agentId : String) :
    HealthTable :=
  t.filter (fun p => ¬ p.1 = agentId)

/-- `heartbeat(agentId)`: refresh `lastSeen`, reset misses, set `alive`;
no-op when the agent is not registered. -/
def HealthMonitor.heartbeat (t : HealthTable) (agentId : String)
    (now : Nat) : HealthTable :=
  aupdate t agentId (fun a =>
    { a with lastSeen := now, consecutiveMisses := 0, status := .alive })

/-- First block of the per-record `check()` body: uptime refresh and
heartbeat-freshness escalation (the `timeSinceHeartbeat` branch). -/
def HealthMonitor.checkHeartbeat (cfg : HMConfig) (now : Nat)
    (agentId : String) (a : AgentHealth) : AgentHealth × List Alert :=
  let a := { a with uptimeSeconds := (now - a.registeredAt) / 1000 }
  let timeSinceHeartbeat := now - a.lastSeen
  if cfg.heartbeatIntervalMs < timeSinceHeartbeat then
    let missedCycles := timeSinceHeartbeat / cfg.heartbeatIntervalMs
    let a := { a with consecutiveMisses := missedCycles }
    if cfg.missThreshold ≤ missedCycles then
      if a.status ≠ HStatus.dead then
        ({ a with status := .dead },
         [Alert.unresponsiveAlert agentId missedCycles cfg.missThreshold])
      else (a, [])
    else if a.status ≠ HStatus.dead then
      ({ a with status := .unresponsive }, [])
    else (a, [])
  else (a, [])

/-- Second block of the per-record `check()` body: resource sampling
against `stats` (the outcome of the `ps` probe for this record's pid,
`none` if absent or failed), with the resource-limit alerts. -/
def HealthMonitor.checkResources (cfg : HMConfig) (agentId : String)
    (a : AgentHealth) (stats : Option PStats) : AgentHealth × List Alert :=
  match a.pid, stats with
  | some _, some st =>
      let a := { a with memoryMb := some st.memoryMb, cpuPct := some st.cpuPct }
      let memAlerts :=
        if 0 < cfg.memoryLimitMb ∧ cfg.memoryLimitMb < st.memoryMb then
          [Alert.memoryLimit agentId]
        else []
      let cpuAlerts :=
        if 0 < cfg.cpuLimitPct ∧ cfg.cpuLimitPct < st.cpuPct then
          [Alert.cpuLimit agentId]
        else []
      (a, memAlerts ++ cpuAlerts)
  | _, _ => (a, [])

/-- One record's share of `check()`: heartbeat-freshness escalation, then
resource sampling. Returns the updated record and the alerts emitted for
it, in emission order. -/
def HealthMonitor.checkRecord (cfg : HMConfig) (now : Nat)
    (agentId : String) (a : AgentHealth) (stats : Option PStats) :
    AgentHealth × List Alert :=
  let hb := HealthMonitor.checkHeartbeat cfg now agentId a
  let res := HealthMonitor.checkResources cfg agentId hb.1 stats
  (res.1, hb.2 ++ res.2)

/-- Whole-table `check()`: every record is processed independently; the
`statsOracle` supplies the `ps` sample per pid. -/
def HealthMonitor.check (cfg : HMConfig) (now : Nat)
    (statsOracle : Nat → Option PStats) (t : HealthTable) :
    HealthTable × List Alert :=
  let processed := t.map (fun p =>
    let r := HealthMonitor.checkRecord cfg now p.1 p.2
      (p.2.pid.bind statsOracle)
    ((p.1, r.1), r.2))
  (processed.map (fun q => q.1), processed.flatMap (fun q => q.2))

/-- Predicate picking out `unresponsive` alerts. -/
def Alert.isUnresponsive : Alert → Bool
  | .unresponsiveAlert _ _ _ => true
  | _ => false

/-- Count the `unresponsive` alerts in an emission list. -/
def countUnresponsive (evs : List Alert) : Nat :=
  (evs.filter Alert.isUnresponsive).length

/-- The per-record behaviour that claim C3 asserts, written from the
claim's words: `missed = ⌊(now − lastSeen) / heartbeatInterval⌋`; if
`missed ≥ missThreshold` and not already dead, go `dead` with one alert;
otherwise if `missed ≥ 1` go `unresponsive` with no alert. Used only to
compare against the source-derived `HealthMonitor.checkRecord`. -/
def claimedCheckStatus (cfg : HMConfig) (now : Nat) (a : AgentHealth) :
    HStatus × Nat :=
  let missed := (now - a.lastSeen) / cfg.heartbeatIntervalMs
  if cfg.missThreshold ≤ missed ∧ a.status ≠ HStatus.dead then
    (HStatus.dead, 1)
  else if 1 ≤ missed then (HStatus.unresponsive, 0)
  else (a.status, 0)

/-! ## Quota probe (src `quota-probe.js`) -/

/-- Estimation strategy selected at construction
(`'output' | 'duration' | 'reported'`). -/
inductive EstimationMethod where
  | output
  | duration
  | reported
deriving DecidableEq, Repr

/-- Per-agent usage record (`{ totalTokens, tasks, lastTask }`); `lastTask`
stores `(tokens, durationMs, ts)`. -/
structure AgentUsage where
  totalTokens : Nat
  tasks : Nat
  lastTask : Option (Nat × Nat × Nat)
deriving DecidableEq, Repr

/-- The probe state. `warningThreshold` is a rational (default `0.8`). -/
structure QuotaProbe where
  budget : Nat
  estimationMethod : EstimationMethod
  charsPerToken : Nat
  tokensPerSecond : Nat
  warningThreshold : ℚ
  agents : List (String × AgentUsage)
  totalTokens : Nat
  warningEmitted : Bool
deriving DecidableEq, Repr

/-- Events emitted by `record()`. The warning's `pct` is
`Math.round(pct * 100)`. -/
inductive QEvent where
  | usage (agentId : String) (tokens totalTokens : Nat)
  | budgetWarning (totalTokens budget : Nat) (pct : ℤ)
  | budgetExhausted (totalTokens budget : Nat)
deriving DecidableEq, Repr

/-- Argument record of `record()`. JavaScript `undefined` output and the
empty string are both falsy there, so a single `String` models both;
`durationMs = 0` likewise stands for an absent duration. -/
structure UsageResult where
  agentId : String
  output : String
  durationMs : Nat
  tokens : Option Nat
deriving DecidableEq, Repr

/-- Ceiling division on naturals (`Math.ceil(a / b)` for exact rational
division). -/
def ceilDiv (a b : Nat) : Nat := (a + b - 1) / b

/-- The estimation chain at the top of `QuotaProbe.record`: explicit
positive token counts take priority, then the configured mode, then the
output fallback, else 0. -/
def QuotaProbe.estimateTokens (p : QuotaProbe) (r : UsageResult) : Nat :=
  if 0 < r.tokens.getD 0 then r.tokens.getD 0
  else if p.estimationMethod = EstimationMethod.output ∧ r.output ≠ "" then
    ceilDiv r.output.length p.charsPerToken
  else if p.estimationMethod = EstimationMethod.duration ∧ r.durationMs ≠ 0 then
    ceilDiv (r.durationMs * p.tokensPerSecond) 1000
  else if r.output ≠ "" then
    ceilDiv r.output.length p.charsPerToken
  else 0

/-- `record(result)`: estimate tokens, update per-agent and aggregate
totals, emit `usage`, then apply the budget thresholds. -/
def QuotaProbe.record (p : QuotaProbe) (r : UsageResult) (now : Nat) :
    QuotaProbe × List QEvent :=
  if r.agentId = "" then (p, []) else
  let tokens := p.estimateTokens r
  let priorAgent := (alookup p.agents r.agentId).getD
    { totalTokens := 0, tasks := 0, lastTask := none }
  let agent : AgentUsage :=
    { totalTokens := priorAgent.totalTokens + tokens,
      tasks := priorAgent.tasks + 1,
      lastTask := some (tokens, r.durationMs, now) }
  let agents :=
    if (alookup p.agents r.agentId).isSome then
      aupdate p.agents r.agentId (fun _ => agent)
    else p.agents ++ [(r.agentId, agent)]
  let total := p.totalTokens + tokens
  let usageEv := QEvent.usage r.agentId tokens total
  if 0 < p.budget then
    let pct : ℚ := (total : ℚ) / (p.budget : ℚ)
    if 1 ≤ pct then
      ({ p with agents, totalTokens := total },
       [usageEv, QEvent.budgetExhausted total p.budget])
    else if p.warningThreshold ≤ pct ∧ p.warningEmitted = false then
      ({ p with agents, totalTokens := total, warningEmitted := true },
       [usageEv, QEvent.budgetWarning total p.budget (round (pct * 100))])
    else ({ p with agents, totalTokens := total }, [usageEv])
  else ({ p with agents, totalTokens := total }, [usageEv])

/-- `setBudget(newBudget)`: update the budget and re-arm the warning latch
when the new utilization is below the threshold. -/
def QuotaProbe.setBudget (p : QuotaProbe) (newBudget : Nat) : QuotaProbe :=
  let p := { p with budget := newBudget }
  if 0 < p.budget ∧ (p.totalTokens : ℚ) / (p.budget : ℚ) < p.warningThreshold then
    { p with warningEmitted := false }
  else p

/-- `reset()`: clear all usage state. -/
def QuotaProbe.reset (p : QuotaProbe) : QuotaProbe :=
  { p with agents := [], totalTokens := 0, warningEmitted := false }

/-- Fold a sequence of `record()` calls, accumulating all emitted events. -/
def QuotaProbe.runRecords (p : QuotaProbe) (rs : List (UsageResult × Nat)) :
    QuotaProbe × List QEvent :=
  match rs with
  | [] => (p, [])
  | r :: rest =>
      ((((p.record r.1 r.2).1).runRecords rest).1,
       (p.record r.1 r.2).2 ++ (((p.record r.1 r.2).1).runRecords rest).2)

/-- Predicate picking out `budget_warning` events. -/
def QEvent.isWarning : QEvent → Bool
  | .budgetWarning _ _ _ => true
  | _ => false

/-- Count the `budget_warning` events in an emission list. -/
def countWarnings (evs : List QEvent) : Nat :=
  (evs.filter QEvent.isWarning).length

/-- The token count claim C8 asserts `record()` uses, written from the
claim's words: the mode chosen at construction decides the estimate, and
only a mode with no input falls back to the output estimate or 0. Used
only to compare against the source-derived `QuotaProbe.estimateTokens`. -/
def claimedTokens (p : QuotaProbe) (r : UsageResult) : Nat :=
  let fallback := if r.output ≠ "" then ceilDiv r.output.length p.charsPerToken else 0
  match p.estimationMethod with
  | .reported => if 0 < r.tokens.getD 0 then r.tokens.getD 0 else fallback
  | .output =>
      if r.output ≠ "" then ceilDiv r.output.length p.charsPerToken else fallback
  | .duration =>
      if r.durationMs ≠ 0 then ceilDiv (r.durationMs * p.tokensPerSecond) 1000
      else fallback

/-- The amended description of the estimation chain: an explicit positive
`tokens` takes priority in every mode; otherwise the constructed mode's
estimate applies when its input is present, with the output fallback. -/
def amendedTokens (p : QuotaProbe) (r : UsageResult) : Nat :=
  if 0 < r.tokens.getD 0 then r.tokens.getD 0 else claimedTokens p r

/-! ## Daemon state machine (src `lib/daemon.js`) -/

/-- `DaemonState`: `idle | promoting | active | demoting | crashed`. -/
inductive DaemonState where
  | idle
  | promoting
  | active
  | demoting
  | crashed
deriving DecidableEq, Repr

/-- A task payload (`{role?, component?, prompt?, id?}`). -/
structure WorkTask where
  role : Option String
  component : Option String
  prompt : Option String
deriving DecidableEq, Repr

/-- The daemon's observable state. `hasProcess` models
`claudeProcess !== null`. Timers, streams and the workspace path carry no
state the claims touch. -/
structure Daemon where
  agentId : String
  name : String
  role : String
  state : DaemonState
  currentTask : Option WorkTask
  hasProcess : Bool
deriving DecidableEq, Repr

/-- Daemon-emitted events relevant to the claims, in emission order. -/
inductive DEvent where
  | startedEvent (agentId : String)
  | stoppedEvent (agentId : String)
  | unclaim (agentId reason : String)
  | promoted (agentId : String)
  | errorEvent (agentId error : String)
  | claimEvent (agentId : String) (component : Option String) (role : String)
  | promoteRequest (agentId : String) (task : Option WorkTask)
deriving DecidableEq, Repr

/-- `stop()`: kill any executor, return to `idle`, clear the task. -/
def Daemon.stop (d : Daemon) : Daemon × List DEvent :=
  ({ d with hasProcess := false, state := .idle, currentTask := none },
   [DEvent.stoppedEvent d.agentId])

/-- `matchesRole(task)`: role equality, with `general` matching anything
and role-less tasks matching only `general` daemons. -/
def Daemon.matchesRole (d : Daemon) (task : WorkTask) : Bool :=
  match task.role with
  | none => d.role = "general"
  | some r => r = d.role ∨ d.role = "general"

/-- `denyPromotion(reason)`: a no-op outside `promoting`; otherwise return
to `idle`, clear the task, emit `unclaim` (with the default reason for a
falsy argument). -/
def Daemon.denyPromotion (d : Daemon) (reason : String) :
    Daemon × List DEvent :=
  if d.state ≠ DaemonState.promoting then (d, [])
  else
    ({ d with state := .idle, currentTask := none },
     [DEvent.unclaim d.agentId
       (if reason = "" then "promotion denied" else reason)])

/-- `approvePromotion(task)` followed by the synchronous part of
`_spawnClaude`: outside `promoting` only an `error` event is emitted;
otherwise the task is attached (falling back to the stored one), the
executor is spawned and the daemon becomes `active`, emitting `promoted`.
A spawn failure surfaces later through the asynchronous `error`/`crashed`
path, which the supervisor handles as a separate crash step. -/
def Daemon.approvePromotion (d : Daemon) (task : Option WorkTask) :
    Daemon × List DEvent :=
  if d.state ≠ DaemonState.promoting then
    (d, [DEvent.errorEvent d.agentId "Cannot promote: not in promoting state"])
  else
    let d := { d with currentTask := task <|> d.currentTask }
    ({ d with state := .active, hasProcess := true },
     [DEvent.promoted d.agentId])

/-- The daemon as `denyPromotion` leaves it: back to `idle`, task
cleared. -/
def Daemon.denied (d : Daemon) : Daemon :=
  { d with state := .idle, currentTask := none }

/-- The daemon as a successful `approvePromotion` leaves it: task
attached (falling back to the stored one), `active`, executor running. -/
def Daemon.activated (d : Daemon) (task : Option WorkTask) : Daemon :=
  { d with currentTask := task <|> d.currentTask, state := .active,
           hasProcess := true }

/-- The structured messages a daemon consumes. -/
inductive BusMsg where
  | assign (agentId : String) (task : Option WorkTask)
  | taskAvailable (task : WorkTask)
deriving DecidableEq, Repr

/-- `_requestPromotion(task)`: enter `promoting`, attach the task, emit
`promote-request`. -/
def Daemon.requestPromotion (d : Daemon) (task : Option WorkTask) :
    Daemon × List DEvent :=
  ({ d with state := .promoting, currentTask := task },
   [DEvent.promoteRequest d.agentId task])

/-- `handleMessage(msg)`: ignored outside `idle`; `ASSIGN` addressed to
self requests promotion; a role-matching `TASK_AVAILABLE` emits `claim`. -/
def Daemon.handleMessage (d : Daemon) (msg : BusMsg) :
    Daemon × List DEvent :=
  if d.state ≠ DaemonState.idle then (d, [])
  else
    match msg with
    | .assign agentId task =>
        if agentId = d.agentId then d.requestPromotion task else (d, [])
    | .taskAvailable task =>
        if d.matchesRole task then
          (d, [DEvent.claimEvent d.agentId task.component d.role])
        else (d, [])

/-- Predicate picking out `promoted` events (the supervisor's `promoted`
handler increments `activeCount`). -/
def DEvent.isPromoted : DEvent → Bool
  | .promoted _ => true
  | _ => false

/-! ## Supervisor (src `supervisor.js`) -/

/-- A promotion request (`{agentId, task}` from `promote-request`). -/
structure PromoteReq where
  agentId : String
  task : Option WorkTask
deriving DecidableEq, Repr

/-- Process-table entry
(`{daemon, restartCount, firstRestartAt, stableSince, restartScheduled}`). -/
structure Entry where
  daemon : Daemon
  restartCount : Nat
  firstRestartAt : Option Nat
  stableSince : Nat
  restartScheduled : Bool
deriving DecidableEq, Repr

/-- The supervisor's serialized state. The health monitor's table is
inlined since crash recovery and scaling drive it. -/
structure Supervisor where
  role : String
  maxActive : Nat
  tokenBudget : Nat
  tokensUsed : Nat
  persist : Bool
  running : Bool
  activeCount : Nat
  promotionsPaused : Bool
  promotionQueue : List PromoteReq
  processTable : List (String × Entry)
  health : HealthTable
deriving DecidableEq, Repr

/-- JavaScript `Map.set`: overwrite an existing key in place, else append. -/
def aset {β : Type} (t : List (String × β)) (id : String) (v : β) :
    List (String × β) :=
  if (alookup t id).isSome then aupdate t id (fun _ => v)
  else t ++ [(id, v)]

/-- Zero-padding to three digits (`String(i).padStart(3, '0')`). -/
def pad3 (n : Nat) : String :=
  let str := toString n
  if str.length < 3 then String.mk (List.replicate (3 - str.length) '0') ++ str
  else str

/-- Daemon naming scheme (`swarm-<role>-<NNN>`). -/
def swarmName (role : String) (i : Nat) : String :=
  "swarm-" ++ role ++ "-" ++ pad3 i

/-- `_spawnDaemon(name)`: create a fresh idle daemon under `newId` (the
spawner-issued identity), register it with the health monitor, append a
fresh process-table entry with `stableSince = now`. -/
def Supervisor.spawnDaemon (s : Supervisor) (name : String) (newId : String)
    (now : Nat) : Supervisor :=
  let d : Daemon :=
    { agentId := newId, name, role := s.role, state := .idle,
      currentTask := none, hasProcess := false }
  { s with
    health := HealthMonitor.register s.health newId none now,
    processTable := aset s.processTable newId
      { daemon := d, restartCount := 0, firstRestartAt := none,
        stableSince := now, restartScheduled := false } }

/-- Store a mutated daemon object back into its table entry. -/
def Supervisor.putDaemon (s : Supervisor) (id : String) (d : Daemon) :
    Supervisor :=
  { s with
    processTable := aupdate s.processTable id (fun e => { e with daemon := d }) }

/-- `entry.daemon.denyPromotion(reason)` guarded by entry existence, as the
admission controller performs it. -/
def Supervisor.denyAt (s : Supervisor) (id reason : String) :
    Supervisor × List DEvent :=
  match alookup s.processTable id with
  | none => (s, [])
  | some e =>
      let (d, evs) := e.daemon.denyPromotion reason
      (s.putDaemon id d, evs)

/-- `entry.daemon.approvePromotion(task)` guarded by entry existence,
including the wired `promoted` handler's `activeCount` increment. -/
def Supervisor.approveAt (s : Supervisor) (id : String)
    (task : Option WorkTask) : Supervisor × List DEvent :=
  match alookup s.processTable id with
  | none => (s, [])
  | some e =>
      let (d, evs) := e.daemon.approvePromotion task
      let s := s.putDaemon id d
      let s :=
        if evs.any DEvent.isPromoted then
          { s with activeCount := s.activeCount + 1 }
        else s
      (s, evs)

/-- `_handlePromoteRequest(req)`: the admission controller. -/
def Supervisor.handlePromoteRequest (s : Supervisor) (req : PromoteReq) :
    Supervisor × List DEvent :=
  if s.promotionsPaused then
    s.denyAt req.agentId "promotions paused (budget/quota)"
  else if s.maxActive ≤ s.activeCount then
    ({ s with promotionQueue := s.promotionQueue ++ [req] }, [])
  else if 0 < s.tokenBudget ∧ s.tokenBudget ≤ s.tokensUsed then
    let s := { s with promotionsPaused := true }
    s.denyAt req.agentId "token budget exhausted"
  else
    s.approveAt req.agentId req.task

/-- The loop body of `_processPromotionQueue`, recursing on the queue. -/
def Supervisor.processPromotionQueueGo :
    List PromoteReq → Supervisor → List PromoteReq × Supervisor
  | [], s => ([], s)
  | req :: rest, s =>
      if s.activeCount < s.maxActive ∧ s.promotionsPaused = false then
        match alookup s.processTable req.agentId with
        | some e =>
            if e.daemon.state = DaemonState.promoting then
              Supervisor.processPromotionQueueGo rest
                (s.approveAt req.agentId req.task).1
            else Supervisor.processPromotionQueueGo rest s
        | none => Supervisor.processPromotionQueueGo rest s
      else (req :: rest, s)

/-- `_processPromotionQueue()`: drain the queue while a slot is open and
promotions are not paused, approving still-`promoting` owners and
discarding stale requests. -/
def Supervisor.processPromotionQueue (s : Supervisor) : Supervisor :=
  let (q, s') := Supervisor.processPromotionQueueGo s.promotionQueue s
  { s' with promotionQueue := q }

/-! ### Crash recovery -/

/-- Outcome of the synchronous part of `_handleCrash`. -/
inductive CrashOutcome where
  | noEntry
  | alreadyScheduled
  | degraded
  | scheduled (delaySec : Nat)
deriving DecidableEq, Repr

/-- The entry mutations of `_handleCrash` past the guards: restart-count
bump, burst bookkeeping, degradation check, backoff computation. -/
def crashEntryStep (entry : Entry) (now : Nat) : Entry × CrashOutcome :=
  let entry := { entry with restartCount := entry.restartCount + 1 }
  let entry :=
    if entry.firstRestartAt.isNone then
      { entry with firstRestartAt := some now }
    else entry
  let entry :=
    if entry.stableSince ≠ 0 ∧ 5 * 60 * 1000 < now - entry.stableSince then
      { entry with restartCount := 1, firstRestartAt := some now }
    else entry
  if 5 < entry.restartCount ∧
      now - entry.firstRestartAt.getD 0 < 30 * 60 * 1000 then
    (entry, .degraded)
  else
    let delaySec := min (2 ^ entry.restartCount) 300
    ({ entry with restartScheduled := true }, .scheduled delaySec)

/-- The synchronous part of `_handleCrash(agentId)`: idempotency guard,
then `crashEntryStep` on the (mutated-in-place) entry. The scheduled timer
body is `Supervisor.restartFire`. -/
def Supervisor.handleCrash (s : Supervisor) (agentId : String) (now : Nat) :
    Supervisor × CrashOutcome :=
  match alookup s.processTable agentId with
  | none => (s, .noEntry)
  | some entry =>
      if entry.restartScheduled then (s, .alreadyScheduled)
      else
        let r := crashEntryStep entry now
        ({ s with
           processTable := aupdate s.processTable agentId (fun _ => r.1) },
         r.2)

/-- The body of the backoff timer scheduled by `_handleCrash`, operating on
the `entry` captured by the closure: stop the old daemon, unregister its
health record, run the (dead) active-count check, delete the table entry,
respawn under the same name with the fresh identity `newId`, and copy the
burst counters into the new entry. -/
def Supervisor.restartFire (s : Supervisor) (agentId : String)
    (entry : Entry) (newId : String) (now : Nat) : Supervisor :=
  if s.running = false then s
  else
    let (stoppedDaemon, _stopEvs) := entry.daemon.stop
    let s := { s with health := HealthMonitor.unregister s.health agentId }
    let s :=
      if stoppedDaemon.state = DaemonState.active then
        { s with activeCount := s.activeCount - 1 }
      else s
    let s :=
      { s with processTable := s.processTable.filter (fun p => ¬ p.1 = agentId) }
    let s := s.spawnDaemon entry.daemon.name newId now
    let copyBurst : Entry → Entry := fun ne =>
      { ne with restartCount := entry.restartCount,
                firstRestartAt := entry.firstRestartAt, stableSince := now }
    { s with processTable := aupdate s.processTable newId copyBurst }

/-! ### Stop and scale -/

/-- `stop()`: mark not running, stop daemons and unregister their health
records, clear the table and the queue, reset `activeCount`. Workspace
teardown and the pidfile are filesystem effects outside the state. -/
def Supervisor.stopSwarm (s : Supervisor) : Supervisor :=
  if s.running = false then s
  else
    let s := { s with running := false }
    let clearedHealth :=
      s.processTable.foldl (fun h p => HealthMonitor.unregister h p.1) s.health
    { s with health := clearedHealth, processTable := [],
             promotionQueue := [], activeCount := 0 }

/-- Return record of `scale(target)`. -/
structure ScaleResult where
  fromCount : Nat
  toCount : Nat
  added : Nat
  removed : Nat
deriving DecidableEq, Repr

/-- The scale-down candidate order: ascending `stableSince`
(`candidates.sort((a, b) => a.entry.stableSince - b.entry.stableSince)`;
the JavaScript sort is stable, as is insertion sort). -/
def entryLe (a b : String × Entry) : Prop :=
  a.2.stableSince ≤ b.2.stableSince

instance : DecidableRel entryLe := fun a b =>
  inferInstanceAs (Decidable (a.2.stableSince ≤ b.2.stableSince))

instance : IsTotal (String × Entry) entryLe :=
  ⟨fun a b => Nat.le_total a.2.stableSince b.2.stableSince⟩

instance : IsTrans (String × Entry) entryLe :=
  ⟨fun _ _ _ h1 h2 => Nat.le_trans h1 h2⟩

/-- The `target < current` branch of `scale`: collect the idle
candidates, sort them ascending by `stableSince`, stop/unregister/remove
up to `current − target` of them. -/
def Supervisor.scaleDown (s : Supervisor) (target : Nat) :
    Supervisor × ScaleResult :=
  let current := s.processTable.length
  let delta := current - target
  let candidates :=
    s.processTable.filter (fun p => p.2.daemon.state = DaemonState.idle)
  let sortedCandidates := List.insertionSort entryLe candidates
  let toRemove := sortedCandidates.take delta
  let removedIds := toRemove.map (fun p => p.1)
  ({ s with
     health := s.health.filter (fun h => ¬ removedIds.contains h.1),
     processTable :=
       s.processTable.filter (fun p => ¬ removedIds.contains p.1) },
   { fromCount := current, toCount := current - toRemove.length,
     added := 0, removed := toRemove.length })

/-- `scale(target)`: `none` models the `Supervisor not running` throw;
`target = 0` delegates to `stop()`; scale-up spawns daemons continuing the
index sequence (with the spawner-issued identities `newIds`); scale-down
removes up to `current − target` idle daemons, longest idle first. -/
def Supervisor.scale (s : Supervisor) (target : Nat) (newIds : List String)
    (now : Nat) : Option (Supervisor × ScaleResult) :=
  if s.running = false then none
  else
    let current := s.processTable.length
    if target = 0 then
      some (s.stopSwarm,
        { fromCount := current, toCount := 0, added := 0, removed := current })
    else if current < target then
      let delta := target - current
      let s' := ((newIds.take delta).enum).foldl
        (fun acc p => acc.spawnDaemon (swarmName acc.role (current + p.1)) p.2 now)
        s
      some (s',
        { fromCount := current, toCount := target, added := delta, removed := 0 })
    else if target < current then
      some (s.scaleDown target)
    else
      some (s,
        { fromCount := current, toCount := current, added := 0, removed := 0 })

/-- The crash-handling step claim C6 asserts, written from the claim's
words alone: burst reset when more than 5 minutes passed since
`stableSince`, then degradation when `restartCount > 5` within 30 minutes
of `firstRestartAt`, otherwise backoff `min(2^restartCount, 300)` seconds.
Used only to compare against the source-derived `Supervisor.handleCrash`. -/
def claimedCrashStep (e : Entry) (now : Nat) : Entry × CrashOutcome :=
  let e :=
    if 5 * 60 * 1000 < now - e.stableSince then
      { e with restartCount := 1, firstRestartAt := some now }
    else e
  if 5 < e.restartCount ∧ now - e.firstRestartAt.getD 0 < 30 * 60 * 1000 then
    (e, .degraded)
  else
    ({ e with restartScheduled := true },
     .scheduled (min (2 ^ e.restartCount) 300))

/-- The amended crash-handling step: identical to `claimedCrashStep` but
first incrementing `restartCount` and initializing `firstRestartAt`, the
two updates the source performs before the burst/degradation/backoff
rules. -/
def amendedCrashStep (e : Entry) (now : Nat) : Entry × CrashOutcome :=
  let e := { e with restartCount := e.restartCount + 1 }
  let e :=
    if e.firstRestartAt.isNone then { e with firstRestartAt := some now }
    else e
  claimedCrashStep e now

/-! ## Association-list lemmas -/

theorem alookup_nil {β : Type} (id : String) :
    alookup ([] : List (String × β)) id = none := rfl

theorem alookup_cons {β : Type} (k : String) (v : β) (t : List (String × β))
    (id : String) :
    alookup ((k, v) :: t) id = if k = id then some v else alookup t id := by
  by_cases h : k = id <;> simp [alookup, List.find?_cons, h]

theorem aupdate_cons {β : Type} (k : String) (v : β) (t : List (String × β))
    (id : String) (f : β → β) :
    aupdate ((k, v) :: t) id f =
      (if k = id then (k, f v) else (k, v)) :: aupdate t id f := by
  by_cases h : k = id <;> simp [aupdate, h]

theorem alookup_aupdate_self {β : Type} (t : List (String × β)) (id : String)
    (f : β → β) : alookup (aupdate t id f) id = (alookup t id).map f := by
  induction t with
  | nil => rfl
  | cons p t ih =>
      obtain ⟨k, v⟩ := p
      rw [aupdate_cons]
      by_cases h : k = id
      · rw [if_pos h, alookup_cons, if_pos h, alookup_cons, if_pos h]
        rfl
      · rw [if_neg h, alookup_cons, if_neg h, alookup_cons, if_neg h, ih]

theorem alookup_aupdate_ne {β : Type} (t : List (String × β)) (id id' : String)
    (f : β → β) (h : ¬ id = id') :
    alookup (aupdate t id f) id' = alookup t id' := by
  induction t with
  | nil => rfl
  | cons p t ih =>
      obtain ⟨k, v⟩ := p
      rw [aupdate_cons]
      by_cases hk : k = id
      · have hk' : ¬ k = id' := by
          rw [hk]; exact h
        rw [if_pos hk, alookup_cons, if_neg hk', alookup_cons, if_neg hk', ih]
      · rw [if_neg hk, alookup_cons, alookup_cons]
        by_cases hq : k = id'
        · rw [if_pos hq, if_pos hq]
        · rw [if_neg hq, if_neg hq, ih]

theorem alookup_filter_key {β : Type} (t : List (String × β))
    (q : String → Bool) (id : String) :
    alookup (t.filter (fun p => q p.1)) id =
      if q id then alookup t id else none := by
  induction t with
  | nil => simp [alookup_nil]
  | cons p t ih =>
      obtain ⟨k, v⟩ := p
      rw [List.filter_cons]
      by_cases hk : k = id
      · subst hk
        by_cases hq : q k
        · simp only [hq, if_true, alookup_cons, if_pos rfl]
        · simp only [hq, Bool.false_eq_true, if_false, ih, alookup_cons,
            if_pos rfl]
      · by_cases hq : q k
        · simp only [hq, if_true, alookup_cons, if_neg hk, ih]
        · simp only [hq, Bool.false_eq_true, if_false, ih, alookup_cons,
            if_neg hk]

/-! ## Claim C4 — heartbeat resets the record -/

/-- C4: after `heartbeat(agentId)`, the record for that `agentId` has
status `alive` and `consecutiveMisses = 0` (and `lastSeen = now`). -/
theorem c4_heartbeat_reset (t : HealthTable) (agentId : String) (now : Nat)
    (a : AgentHealth) (h : alookup t agentId = some a) :
    ∃ a', alookup (HealthMonitor.heartbeat t agentId now) agentId = some a' ∧
      a'.status = HStatus.alive ∧ a'.consecutiveMisses = 0 ∧
      a'.lastSeen = now := by
  refine ⟨{ a with lastSeen := now, consecutiveMisses := 0, status := .alive },
    ?_, rfl, rfl, rfl⟩
  simp [HealthMonitor.heartbeat, alookup_aupdate_self, h]

/-- Witness for C4 at a concrete registered record. -/
theorem c4_heartbeat_reset_witness :
    ∃ a', alookup (HealthMonitor.heartbeat
        [("a", { lastSeen := 0, status := .dead, consecutiveMisses := 7,
                 pid := none, memoryMb := none, cpuPct := none,
                 uptimeSeconds := 3, registeredAt := 0 })] "a" 123) "a" =
        some a' ∧
      a'.status = HStatus.alive ∧ a'.consecutiveMisses = 0 ∧
      a'.lastSeen = 123 :=
  c4_heartbeat_reset _ "a" 123 _ rfl

/-! ## Claim C10 — denyPromotion outside promoting is a no-op -/

/-- C10: for a daemon not in `promoting`, `denyPromotion(reason)` changes
nothing and emits nothing. -/
theorem c10_deny_noop (d : Daemon) (reason : String)
    (h : d.state ≠ DaemonState.promoting) :
    d.denyPromotion reason = (d, []) := by
  simp [Daemon.denyPromotion, h]

/-- Witness for C10 on a concrete `active` daemon. -/
theorem c10_deny_noop_witness :
    Daemon.denyPromotion
        { agentId := "a", name := "swarm-builder-000", role := "builder",
          state := .active, currentTask := none, hasProcess := true }
        "budget" =
      ({ agentId := "a", name := "swarm-builder-000", role := "builder",
         state := .active, currentTask := none, hasProcess := true },
       []) :=
  c10_deny_noop _ "budget" (by decide)

/-! ## Claim C3 — health check escalation -/

/-- C3 counterexample: with `heartbeatInterval = 30000` and
`now − lastSeen = 30000` exactly, `missed = ⌊30000 / 30000⌋ = 1 ≥ 1`, so
the claim demands status `unresponsive`; the source only acts when
`now − lastSeen` strictly exceeds the interval and leaves the record
`alive`. -/
theorem c3_check_boundary_counterexample :
    (claimedCheckStatus
        { heartbeatIntervalMs := 30000, missThreshold := 3,
          memoryLimitMb := 0, cpuLimitPct := 0 } 30000
        { lastSeen := 0, status := .alive, consecutiveMisses := 0,
          pid := none, memoryMb := none, cpuPct := none, uptimeSeconds := 0,
          registeredAt := 0 }).1 = HStatus.unresponsive ∧
    ((HealthMonitor.checkRecord
        { heartbeatIntervalMs := 30000, missThreshold := 3,
          memoryLimitMb := 0, cpuLimitPct := 0 } 30000 "a"
        { lastSeen := 0, status := .alive, consecutiveMisses := 0,
          pid := none, memoryMb := none, cpuPct := none, uptimeSeconds := 0,
          registeredAt := 0 } none).1).status = HStatus.alive := by
  constructor <;> decide

/-- C3 (amended): the monitor escalates a record only when
`now − lastSeen` strictly exceeds `heartbeatInterval`; then, with
`missed = ⌊(now − lastSeen) / heartbeatInterval⌋ ≥ 1` stored into
`consecutiveMisses`, a not-yet-dead record with `missed ≥ missThreshold`
becomes `dead` with exactly one `unresponsive` alert, a not-yet-dead
record below the threshold becomes `unresponsive` with no alert, and a
dead record stays `dead` with no further alert. -/
theorem c3_check_amended (cfg : HMConfig) (now : Nat) (agentId : String)
    (a : AgentHealth) (stats : Option PStats) :
    (now - a.lastSeen ≤ cfg.heartbeatIntervalMs →
      ((HealthMonitor.checkRecord cfg now agentId a stats).1).status =
          a.status ∧
      ((HealthMonitor.checkRecord cfg now agentId a stats).1).consecutiveMisses
          = a.consecutiveMisses ∧
      countUnresponsive (HealthMonitor.checkRecord cfg now agentId a stats).2
          = 0) ∧
    (cfg.heartbeatIntervalMs < now - a.lastSeen →
      ((HealthMonitor.checkRecord cfg now agentId a stats).1).consecutiveMisses
          = (now - a.lastSeen) / cfg.heartbeatIntervalMs ∧
      (cfg.missThreshold ≤ (now - a.lastSeen) / cfg.heartbeatIntervalMs →
        a.status ≠ HStatus.dead →
        ((HealthMonitor.checkRecord cfg now agentId a stats).1).status =
            HStatus.dead ∧
        countUnresponsive (HealthMonitor.checkRecord cfg now agentId a stats).2
            = 1) ∧
      ((now - a.lastSeen) / cfg.heartbeatIntervalMs < cfg.missThreshold →
        a.status ≠ HStatus.dead →
        ((HealthMonitor.checkRecord cfg now agentId a stats).1).status =
            HStatus.unresponsive ∧
        countUnresponsive (HealthMonitor.checkRecord cfg now agentId a stats).2
            = 0)) ∧
    (a.status = HStatus.dead →
      ((HealthMonitor.checkRecord cfg now agentId a stats).1).status =
          HStatus.dead ∧
      countUnresponsive (HealthMonitor.checkRecord cfg now agentId a stats).2
          = 0) := by
  have hres : ∀ (b : AgentHealth),
      ((HealthMonitor.checkResources cfg agentId b stats).1).status = b.status
      ∧ ((HealthMonitor.checkResources cfg agentId b stats).1).consecutiveMisses
          = b.consecutiveMisses
      ∧ countUnresponsive (HealthMonitor.checkResources cfg agentId b stats).2
          = 0 := by
    intro b
    unfold HealthMonitor.checkResources
    match b.pid, stats with
    | none, _ => exact ⟨rfl, rfl, rfl⟩
    | some _, none => exact ⟨rfl, rfl, rfl⟩
    | some _, some st =>
        refine ⟨rfl, rfl, ?_⟩
        by_cases h1 : 0 < cfg.memoryLimitMb ∧ cfg.memoryLimitMb < st.memoryMb
          <;> by_cases h2 : 0 < cfg.cpuLimitPct ∧ cfg.cpuLimitPct < st.cpuPct
          <;> simp [h1, h2, countUnresponsive, Alert.isUnresponsive]
  have hstat :
      ((HealthMonitor.checkRecord cfg now agentId a stats).1).status =
        ((HealthMonitor.checkHeartbeat cfg now agentId a).1).status := by
    simp only [HealthMonitor.checkRecord]
    exact (hres _).1
  have hmiss :
      ((HealthMonitor.checkRecord cfg now agentId a stats).1).consecutiveMisses
        = ((HealthMonitor.checkHeartbeat cfg now agentId a).1).consecutiveMisses
      := by
    simp only [HealthMonitor.checkRecord]
    exact (hres _).2.1
  have hcount :
      countUnresponsive (HealthMonitor.checkRecord cfg now agentId a stats).2
        = countUnresponsive (HealthMonitor.checkHeartbeat cfg now agentId a).2
      := by
    simp only [HealthMonitor.checkRecord]
    have h0 := (hres ((HealthMonitor.checkHeartbeat cfg now agentId a).1)).2.2
    unfold countUnresponsive at h0 ⊢
    rw [List.filter_append, List.length_append, h0]
    omega
  rw [hstat, hmiss, hcount]
  by_cases ht : cfg.heartbeatIntervalMs < now - a.lastSeen
  · by_cases hm : cfg.missThreshold ≤ (now - a.lastSeen) / cfg.heartbeatIntervalMs
    · by_cases hd : a.status = HStatus.dead
      · have hb : ((HealthMonitor.checkHeartbeat cfg now agentId a).1).status
              = HStatus.dead ∧
            ((HealthMonitor.checkHeartbeat cfg now agentId a).1).consecutiveMisses
              = (now - a.lastSeen) / cfg.heartbeatIntervalMs ∧
            countUnresponsive
              (HealthMonitor.checkHeartbeat cfg now agentId a).2 = 0 := by
          refine ⟨?_, ?_, ?_⟩ <;>
            simp [HealthMonitor.checkHeartbeat, ht, hm, hd, countUnresponsive]
        refine ⟨fun hc => absurd ht (not_lt.mpr hc), fun _ => ?_, fun _ => ?_⟩
        · exact ⟨hb.2.1, fun _ hne => absurd hd hne,
            fun hlt _ => absurd hm (not_le.mpr hlt)⟩
        · exact ⟨hb.1, hb.2.2⟩
      · have hb : ((HealthMonitor.checkHeartbeat cfg now agentId a).1).status
              = HStatus.dead ∧
            ((HealthMonitor.checkHeartbeat cfg now agentId a).1).consecutiveMisses
              = (now - a.lastSeen) / cfg.heartbeatIntervalMs ∧
            countUnresponsive
              (HealthMonitor.checkHeartbeat cfg now agentId a).2 = 1 := by
          refine ⟨?_, ?_, ?_⟩ <;>
            simp [HealthMonitor.checkHeartbeat, ht, hm, hd, countUnresponsive,
              Alert.isUnresponsive]
        refine ⟨fun hc => absurd ht (not_lt.mpr hc), fun _ => ?_,
          fun hc => absurd hc hd⟩
        exact ⟨hb.2.1, fun _ _ => ⟨hb.1, hb.2.2⟩,
          fun hlt _ => absurd hm (not_le.mpr hlt)⟩
    · by_cases hd : a.status = HStatus.dead
      · have hb : ((HealthMonitor.checkHeartbeat cfg now agentId a).1).status
              = HStatus.dead ∧
            ((HealthMonitor.checkHeartbeat cfg now agentId a).1).consecutiveMisses
              = (now - a.lastSeen) / cfg.heartbeatIntervalMs ∧
            countUnresponsive
              (HealthMonitor.checkHeartbeat cfg now agentId a).2 = 0 := by
          refine ⟨?_, ?_, ?_⟩ <;>
            simp [HealthMonitor.checkHeartbeat, ht, hm, hd, countUnresponsive]
        refine ⟨fun hc => absurd ht (not_lt.mpr hc), fun _ => ?_, fun _ => ?_⟩
        · exact ⟨hb.2.1, fun hle _ => absurd hle hm, fun _ hne => absurd hd hne⟩
        · exact ⟨hb.1, hb.2.2⟩
      · have hb : ((HealthMonitor.checkHeartbeat cfg now agentId a).1).status
              = HStatus.unresponsive ∧
            ((HealthMonitor.checkHeartbeat cfg now agentId a).1).consecutiveMisses
              = (now - a.lastSeen) / cfg.heartbeatIntervalMs ∧
            countUnresponsive
              (HealthMonitor.checkHeartbeat cfg now agentId a).2 = 0 := by
          refine ⟨?_, ?_, ?_⟩ <;>
            simp [HealthMonitor.checkHeartbeat, ht, hm, hd, countUnresponsive]
        refine ⟨fun hc => absurd ht (not_lt.mpr hc), fun _ => ?_,
          fun hc => absurd hc hd⟩
        exact ⟨hb.2.1, fun hle _ => absurd hle hm, fun _ _ => ⟨hb.1, hb.2.2⟩⟩
  · have hb : ((HealthMonitor.checkHeartbeat cfg now agentId a).1).status
          = a.status ∧
        ((HealthMonitor.checkHeartbeat cfg now agentId a).1).consecutiveMisses
          = a.consecutiveMisses ∧
        countUnresponsive (HealthMonitor.checkHeartbeat cfg now agentId a).2
          = 0 := by
      refine ⟨?_, ?_, ?_⟩ <;>
        simp [HealthMonitor.checkHeartbeat, ht, countUnresponsive]
    refine ⟨fun _ => ⟨hb.1, hb.2.1, hb.2.2⟩, fun hc => absurd hc ht,
      fun hd => ⟨by rw [hb.1, hd], hb.2.2⟩⟩

/-- Witness for C3 (amended), exercising the dead transition at a concrete
record three intervals stale. -/
theorem c3_check_amended_witness :
    ((HealthMonitor.checkRecord
        { heartbeatIntervalMs := 30000, missThreshold := 3,
          memoryLimitMb := 0, cpuLimitPct := 0 } 90001 "a"
        { lastSeen := 0, status := .alive, consecutiveMisses := 0,
          pid := none, memoryMb := none, cpuPct := none, uptimeSeconds := 0,
          registeredAt := 0 } none).1).status = HStatus.dead ∧
    countUnresponsive (HealthMonitor.checkRecord
        { heartbeatIntervalMs := 30000, missThreshold := 3,
          memoryLimitMb := 0, cpuLimitPct := 0 } 90001 "a"
        { lastSeen := 0, status := .alive, consecutiveMisses := 0,
          pid := none, memoryMb := none, cpuPct := none, uptimeSeconds := 0,
          registeredAt := 0 } none).2 = 1 :=
  ((c3_check_amended _ 90001 "a" _ none).2.1 (by decide)).2.1 (by decide)
    (by decide)

/-! ## Claim C8 — token estimation modes -/

/-- C8 counterexample: in `output` mode with an 8-character output, the
claim's mode-determined estimate is `⌈8 / 4⌉ = 2`, but the source honours
the explicit `tokens: 100` in every mode and records 100. -/
theorem c8_estimation_counterexample :
    QuotaProbe.estimateTokens
        { budget := 0, estimationMethod := .output, charsPerToken := 4,
          tokensPerSecond := 50, warningThreshold := (8 : ℚ) / 10,
          agents := [], totalTokens := 0, warningEmitted := false }
        { agentId := "a", output := "aaaaaaaa", durationMs := 0,
          tokens := some 100 } = 100 ∧
    claimedTokens
        { budget := 0, estimationMethod := .output, charsPerToken := 4,
          tokensPerSecond := 50, warningThreshold := (8 : ℚ) / 10,
          agents := [], totalTokens := 0, warningEmitted := false }
        { agentId := "a", output := "aaaaaaaa", durationMs := 0,
          tokens := some 100 } = 2 := by
  constructor <;> rfl

/-- C8 (amended): an explicit positive `tokens` value takes priority in
every estimation mode; otherwise the mode selected at construction
determines the estimate, with the output fallback (or 0) when the mode's
input is absent. -/
theorem c8_estimation_amended (p : QuotaProbe) (r : UsageResult) :
    p.estimateTokens r = amendedTokens p r := by
  unfold QuotaProbe.estimateTokens amendedTokens claimedTokens
  by_cases h0 : 0 < r.tokens.getD 0
  · simp [h0]
  · cases hm : p.estimationMethod <;> by_cases ho : r.output = "" <;>
      by_cases hd : r.durationMs = 0 <;> simp [h0, ho, hd]

/-! ## Claim C7 — budget thresholds and the warning latch -/

theorem countWarnings_append (a b : List QEvent) :
    countWarnings (a ++ b) = countWarnings a + countWarnings b := by
  simp [countWarnings, List.filter_append]

theorem record_budget_eq (p : QuotaProbe) (r : UsageResult) (now : Nat) :
    ((p.record r now).1).budget = p.budget := by
  simp only [QuotaProbe.record]
  split_ifs <;> rfl

theorem record_totalTokens_eq (p : QuotaProbe) (r : UsageResult) (now : Nat)
    (h : ¬ r.agentId = "") :
    ((p.record r now).1).totalTokens = p.totalTokens + p.estimateTokens r := by
  simp only [QuotaProbe.record, h, if_false]
  split_ifs <;> rfl

theorem record_warning_cases (p : QuotaProbe) (r : UsageResult) (now : Nat) :
    (countWarnings ((p.record r now).2) = 0 ∧
      ((p.record r now).1).warningEmitted = p.warningEmitted) ∨
    (countWarnings ((p.record r now).2) = 1 ∧
      ((p.record r now).1).warningEmitted = true) := by
  simp only [QuotaProbe.record]
  split_ifs <;>
    simp [countWarnings, QEvent.isWarning]

theorem record_latched (p : QuotaProbe) (r : UsageResult) (now : Nat)
    (h : p.warningEmitted = true) :
    countWarnings ((p.record r now).2) = 0 ∧
      ((p.record r now).1).warningEmitted = true := by
  simp only [QuotaProbe.record]
  split_ifs <;> simp_all [countWarnings, QEvent.isWarning]

theorem runRecords_latched (p : QuotaProbe) (rs : List (UsageResult × Nat))
    (h : p.warningEmitted = true) :
    countWarnings ((p.runRecords rs).2) = 0 := by
  induction rs generalizing p with
  | nil => rfl
  | cons r rest ih =>
      have h1 := record_latched p r.1 r.2 h
      simp only [QuotaProbe.runRecords, countWarnings_append, h1.1,
        ih _ h1.2]

/-- C7: with a positive budget, a record reaching the budget emits
`budget_exhausted`; a record landing in the warning window
`[warningThreshold·budget, budget)` emits `budget_warning` exactly when the
latch is unset and leaves the latch set, so any sequence of records emits
at most one warning (none from a latched probe); and `setBudget` re-arms
the latch exactly when the new utilization is below the threshold. -/
theorem c7_quota_warning_latch :
    (∀ (p : QuotaProbe) (r : UsageResult) (now : Nat), ¬ r.agentId = "" →
      0 < p.budget → p.budget ≤ ((p.record r now).1).totalTokens →
      QEvent.budgetExhausted ((p.record r now).1).totalTokens p.budget
        ∈ (p.record r now).2) ∧
    (∀ (p : QuotaProbe) (r : UsageResult) (now : Nat), ¬ r.agentId = "" →
      0 < p.budget →
      p.warningThreshold * (p.budget : ℚ)
          ≤ ((((p.record r now).1).totalTokens : ℕ) : ℚ) →
      ((p.record r now).1).totalTokens < p.budget →
      countWarnings ((p.record r now).2)
          = (if p.warningEmitted = true then 0 else 1) ∧
      ((p.record r now).1).warningEmitted = true) ∧
    (∀ (p : QuotaProbe) (rs : List (UsageResult × Nat)),
      countWarnings ((p.runRecords rs).2) ≤ 1 ∧
      (p.warningEmitted = true → countWarnings ((p.runRecords rs).2) = 0)) ∧
    (∀ (p : QuotaProbe) (n : Nat), 0 < n →
      (((p.setBudget n).warningEmitted = false) ↔
        (p.warningEmitted = false ∨
          (p.totalTokens : ℚ) / (n : ℚ) < p.warningThreshold))) := by
  have hbq : ∀ (p : QuotaProbe), 0 < p.budget → (0 : ℚ) < (p.budget : ℚ) :=
    fun p h => by exact_mod_cast h
  refine ⟨?_, ?_, ?_, ?_⟩
  · intro p r now h hb htot
    rw [record_totalTokens_eq p r now h] at htot ⊢
    have hpct : (1 : ℚ) ≤
        ((p.totalTokens + p.estimateTokens r : ℕ) : ℚ) / (p.budget : ℚ) := by
      rw [one_le_div (hbq p hb)]
      exact_mod_cast htot
    simp only [QuotaProbe.record, h, if_false, hb, if_true, hpct]
    simp
  · intro p r now h hb hw1 hw2
    rw [record_totalTokens_eq p r now h] at hw1 hw2
    have hlt : ((p.totalTokens + p.estimateTokens r : ℕ) : ℚ) / (p.budget : ℚ)
        < 1 := by
      rw [div_lt_one (hbq p hb)]
      exact_mod_cast hw2
    have hnot : ¬ ((1 : ℚ) ≤
        ((p.totalTokens + p.estimateTokens r : ℕ) : ℚ) / (p.budget : ℚ)) :=
      not_le.mpr hlt
    have hthr : p.warningThreshold ≤
        ((p.totalTokens + p.estimateTokens r : ℕ) : ℚ) / (p.budget : ℚ) := by
      rw [le_div_iff₀ (hbq p hb)]
      exact hw1
    cases hwe : p.warningEmitted with
    | false =>
        constructor
        · simp only [QuotaProbe.record, h, if_false, hb, if_true, hnot, hthr,
            hwe]
          simp [countWarnings, QEvent.isWarning]
        · simp only [QuotaProbe.record, h, if_false, hb, if_true, hnot, hthr,
            hwe]
          simp
    | true =>
        constructor
        · have := (record_latched p r now hwe).1
          simpa [hwe] using this
        · exact (record_latched p r now hwe).2
  · intro p rs
    constructor
    · induction rs generalizing p with
      | nil => simp [QuotaProbe.runRecords, countWarnings]
      | cons r rest ih =>
          rcases record_warning_cases p r.1 r.2 with ⟨h0, he⟩ | ⟨h1, he⟩
          · simp only [QuotaProbe.runRecords, countWarnings_append, h0]
            simpa using ih ((p.record r.1 r.2).1)
          · simp only [QuotaProbe.runRecords, countWarnings_append, h1,
              runRecords_latched _ rest he]
            omega
    · exact runRecords_latched p rs
  · intro p n hn
    have hn' : 0 < n := hn
    simp only [QuotaProbe.setBudget]
    by_cases hu : (p.totalTokens : ℚ) / (n : ℚ) < p.warningThreshold
    · simp [hn', hu]
    · simp [hn', hu]

/-- Witness for C7: a fresh probe with budget 100 and threshold 4/5
records 85 tokens, landing in the warning window and emitting one
warning; and `setBudget 300` on the latched probe re-arms the latch. -/
theorem c7_quota_warning_latch_witness :
    countWarnings ((QuotaProbe.record
        { budget := 100, estimationMethod := .reported, charsPerToken := 4,
          tokensPerSecond := 50, warningThreshold := (4 : ℚ) / 5,
          agents := [], totalTokens := 0, warningEmitted := false }
        { agentId := "a", output := "", durationMs := 0,
          tokens := some 85 } 0).2) = 1 ∧
    ((QuotaProbe.record
        { budget := 100, estimationMethod := .reported, charsPerToken := 4,
          tokensPerSecond := 50, warningThreshold := (4 : ℚ) / 5,
          agents := [], totalTokens := 0, warningEmitted := false }
        { agentId := "a", output := "", durationMs := 0,
          tokens := some 85 } 0).1).warningEmitted = true ∧
    (QuotaProbe.setBudget
        { budget := 100, estimationMethod := .reported, charsPerToken := 4,
          tokensPerSecond := 50, warningThreshold := (4 : ℚ) / 5,
          agents := [], totalTokens := 85, warningEmitted := true }
        300).warningEmitted = false := by
  have htot : ((QuotaProbe.record
      { budget := 100, estimationMethod := .reported, charsPerToken := 4,
        tokensPerSecond := 50, warningThreshold := (4 : ℚ) / 5,
        agents := [], totalTokens := 0, warningEmitted := false }
      { agentId := "a", output := "", durationMs := 0,
        tokens := some 85 } 0).1).totalTokens = 85 := by
    rw [record_totalTokens_eq _ _ _ (by decide)]
    rfl
  have h1 := c7_quota_warning_latch.2.1
    { budget := 100, estimationMethod := .reported, charsPerToken := 4,
      tokensPerSecond := 50, warningThreshold := (4 : ℚ) / 5,
      agents := [], totalTokens := 0, warningEmitted := false }
    { agentId := "a", output := "", durationMs := 0, tokens := some 85 } 0
    (by decide) (by decide) (by rw [htot]; norm_num)
    (by rw [htot]; norm_num)
  refine ⟨by simpa using h1.1, h1.2, ?_⟩
  have h2 := (c7_quota_warning_latch.2.2.2
    { budget := 100, estimationMethod := .reported, charsPerToken := 4,
      tokensPerSecond := 50, warningThreshold := (4 : ℚ) / 5,
      agents := [], totalTokens := 85, warningEmitted := true }
    300 (by decide)).mpr (Or.inr (by norm_num))
  exact h2

/-! ## Claim C2 — the promotion admission controller -/

theorem denyAt_spec (s : Supervisor) (id reason : String) (e : Entry)
    (he : alookup s.processTable id = some e)
    (hprom : e.daemon.state = DaemonState.promoting)
    (hr : ¬ reason = "") :
    s.denyAt id reason =
      (s.putDaemon id e.daemon.denied,
       [DEvent.unclaim e.daemon.agentId reason]) := by
  simp only [Supervisor.denyAt, he, Daemon.denyPromotion, hprom,
    Daemon.denied]
  simp [hr]

theorem approveAt_spec (s : Supervisor) (id : String) (task : Option WorkTask)
    (e : Entry) (he : alookup s.processTable id = some e)
    (hprom : e.daemon.state = DaemonState.promoting) :
    s.approveAt id task =
      ({ s.putDaemon id (e.daemon.activated task) with
         activeCount := s.activeCount + 1 },
       [DEvent.promoted e.daemon.agentId]) := by
  simp only [Supervisor.approveAt, he, Daemon.approvePromotion, hprom,
    Daemon.activated]
  simp [DEvent.isPromoted, Supervisor.putDaemon]

/-- C2: the admission controller applies its checks in order — pause
denial, capacity queueing (FIFO, daemon left `promoting`), budget
exhaustion (pause then denial), approval. -/
theorem c2_admission_controller (s : Supervisor) (req : PromoteReq)
    (e : Entry) (he : alookup s.processTable req.agentId = some e)
    (hprom : e.daemon.state = DaemonState.promoting)
    (hid : e.daemon.agentId = req.agentId) :
    (s.promotionsPaused = true →
      (s.handlePromoteRequest req).2 =
        [DEvent.unclaim req.agentId "promotions paused (budget/quota)"] ∧
      alookup ((s.handlePromoteRequest req).1).processTable req.agentId =
        some { e with daemon := e.daemon.denied } ∧
      ((s.handlePromoteRequest req).1).promotionQueue = s.promotionQueue ∧
      ((s.handlePromoteRequest req).1).activeCount = s.activeCount) ∧
    (s.promotionsPaused = false → s.maxActive ≤ s.activeCount →
      s.handlePromoteRequest req =
        ({ s with promotionQueue := s.promotionQueue ++ [req] }, []) ∧
      alookup ((s.handlePromoteRequest req).1).processTable req.agentId =
        some e) ∧
    (s.promotionsPaused = false → s.activeCount < s.maxActive →
      0 < s.tokenBudget → s.tokenBudget ≤ s.tokensUsed →
      ((s.handlePromoteRequest req).1).promotionsPaused = true ∧
      (s.handlePromoteRequest req).2 =
        [DEvent.unclaim req.agentId "token budget exhausted"] ∧
      alookup ((s.handlePromoteRequest req).1).processTable req.agentId =
        some { e with daemon := e.daemon.denied } ∧
      ((s.handlePromoteRequest req).1).promotionQueue = s.promotionQueue ∧
      ((s.handlePromoteRequest req).1).activeCount = s.activeCount) ∧
    (s.promotionsPaused = false → s.activeCount < s.maxActive →
      ¬ (0 < s.tokenBudget ∧ s.tokenBudget ≤ s.tokensUsed) →
      (s.handlePromoteRequest req).2 = [DEvent.promoted req.agentId] ∧
      ((s.handlePromoteRequest req).1).activeCount = s.activeCount + 1 ∧
      alookup ((s.handlePromoteRequest req).1).processTable req.agentId =
        some { e with daemon := e.daemon.activated req.task } ∧
      ((s.handlePromoteRequest req).1).promotionQueue = s.promotionQueue) := by
  have hput : ∀ (s' : Supervisor) (d : Daemon),
      alookup ((s'.putDaemon req.agentId d).processTable) req.agentId =
        (alookup s'.processTable req.agentId).map
          (fun en => { en with daemon := d }) := by
    intro s' d
    simp only [Supervisor.putDaemon]
    exact alookup_aupdate_self _ _ _
  refine ⟨?_, ?_, ?_, ?_⟩
  · intro hp
    have hd := denyAt_spec s req.agentId "promotions paused (budget/quota)" e
      he hprom (by decide)
    have heq : s.handlePromoteRequest req =
        (s.putDaemon req.agentId e.daemon.denied,
         [DEvent.unclaim e.daemon.agentId
           "promotions paused (budget/quota)"]) := by
      unfold Supervisor.handlePromoteRequest
      rw [if_pos hp]
      exact hd
    rw [heq, hid]
    refine ⟨rfl, ?_, rfl, rfl⟩
    rw [hput s e.daemon.denied, he]
    rfl
  · intro hp hq
    have hns : ¬ s.promotionsPaused = true := by
      rw [hp]; exact Bool.false_ne_true
    have heq : s.handlePromoteRequest req =
        ({ s with promotionQueue := s.promotionQueue ++ [req] }, []) := by
      unfold Supervisor.handlePromoteRequest
      rw [if_neg hns, if_pos hq]
    rw [heq]
    exact ⟨rfl, he⟩
  · intro hp hq hb hu
    have hns : ¬ s.promotionsPaused = true := by
      rw [hp]; exact Bool.false_ne_true
    have hq' : ¬ s.maxActive ≤ s.activeCount := not_le.mpr hq
    have hd := denyAt_spec { s with promotionsPaused := true } req.agentId
      "token budget exhausted" e he hprom (by decide)
    have heq : s.handlePromoteRequest req =
        (Supervisor.putDaemon { s with promotionsPaused := true }
          req.agentId e.daemon.denied,
         [DEvent.unclaim e.daemon.agentId "token budget exhausted"]) := by
      unfold Supervisor.handlePromoteRequest
      rw [if_neg hns, if_neg hq', if_pos ⟨hb, hu⟩]
      exact hd
    rw [heq, hid]
    refine ⟨rfl, rfl, ?_, rfl, rfl⟩
    rw [hput _ e.daemon.denied, he]
    rfl
  · intro hp hq hbu
    have hns : ¬ s.promotionsPaused = true := by
      rw [hp]; exact Bool.false_ne_true
    have hq' : ¬ s.maxActive ≤ s.activeCount := not_le.mpr hq
    have ha := approveAt_spec s req.agentId req.task e he hprom
    have heq : s.handlePromoteRequest req =
        ({ s.putDaemon req.agentId (e.daemon.activated req.task) with
           activeCount := s.activeCount + 1 },
         [DEvent.promoted e.daemon.agentId]) := by
      unfold Supervisor.handlePromoteRequest
      rw [if_neg hns, if_neg hq', if_neg hbu]
      exact ha
    rw [heq, hid]
    refine ⟨rfl, rfl, ?_, rfl⟩
    show alookup ((s.putDaemon req.agentId
      (e.daemon.activated req.task)).processTable) req.agentId = _
    rw [hput s (e.daemon.activated req.task), he]
    rfl

/-- Witness for C2, driving the budget-exhaustion branch at a concrete
state: one promoting daemon, budget 10, usage 10. -/
theorem c2_admission_controller_witness :
    ((Supervisor.handlePromoteRequest { role := "builder", maxActive := 5, tokenBudget := 10, tokensUsed := 10, persist := false, running := true, activeCount := 0, promotionsPaused := false, promotionQueue := [], processTable := [("a", { daemon := { agentId := "a", name := "swarm-builder-000", role := "builder", state := .promoting, currentTask := none, hasProcess := false }, restartCount := 0, firstRestartAt := none, stableSince := 7, restartScheduled := false })], health := [] } { agentId := "a", task := none }).1).promotionsPaused = true ∧
    (Supervisor.handlePromoteRequest { role := "builder", maxActive := 5, tokenBudget := 10, tokensUsed := 10, persist := false, running := true, activeCount := 0, promotionsPaused := false, promotionQueue := [], processTable := [("a", { daemon := { agentId := "a", name := "swarm-builder-000", role := "builder", state := .promoting, currentTask := none, hasProcess := false }, restartCount := 0, firstRestartAt := none, stableSince := 7, restartScheduled := false })], health := [] } { agentId := "a", task := none }).2 = [DEvent.unclaim "a" "token budget exhausted"] := by
  have h := (c2_admission_controller
    { role := "builder", maxActive := 5, tokenBudget := 10, tokensUsed := 10, persist := false, running := true, activeCount := 0, promotionsPaused := false, promotionQueue := [], processTable := [("a", { daemon := { agentId := "a", name := "swarm-builder-000", role := "builder", state := .promoting, currentTask := none, hasProcess := false }, restartCount := 0, firstRestartAt := none, stableSince := 7, restartScheduled := false })], health := [] }
    { agentId := "a", task := none }
    { daemon := { agentId := "a", name := "swarm-builder-000", role := "builder", state := .promoting, currentTask := none, hasProcess := false }, restartCount := 0, firstRestartAt := none, stableSince := 7, restartScheduled := false }
    (by decide) rfl rfl).2.2.1 rfl (by decide) (by decide) (by decide)
  exact ⟨h.1, h.2.1⟩

/-! ## Claim C6 — crash bookkeeping, degradation and backoff -/

/-- C6 counterexample: entry with `restartCount = 5`, first restart 10
minutes ago, `stableSince = now`. The claim's rules (which never increment
`restartCount`) schedule a restart after `min(2^5, 300) = 32` seconds; the
source increments to 6 first, detects degradation (6 > 5 within 30
minutes) and schedules nothing. -/
theorem c6_crash_backoff_counterexample :
    (Supervisor.handleCrash { role := "builder", maxActive := 5, tokenBudget := 0, tokensUsed := 0, persist := false, running := true, activeCount := 0, promotionsPaused := false, promotionQueue := [], processTable := [("a", { daemon := { agentId := "a", name := "swarm-builder-000", role := "builder", state := .crashed, currentTask := none, hasProcess := false }, restartCount := 5, firstRestartAt := some 400000, stableSince := 1000000, restartScheduled := false })], health := [] } "a" 1000000).2 = CrashOutcome.degraded ∧
    (claimedCrashStep { daemon := { agentId := "a", name := "swarm-builder-000", role := "builder", state := .crashed, currentTask := none, hasProcess := false }, restartCount := 5, firstRestartAt := some 400000, stableSince := 1000000, restartScheduled := false } 1000000).2 = CrashOutcome.scheduled 32 := by
  constructor <;> rfl

/-- C6 (amended): for an existing, not-yet-scheduled entry the crash
handler first increments `restartCount` and initializes `firstRestartAt`
to `now` when unset; only then do the claim's burst-reset, degradation and
`min(2^restartCount, 300)`-second backoff rules apply, to the updated
counters. -/
theorem c6_crash_backoff_amended (s : Supervisor) (agentId : String)
    (now : Nat) (e : Entry)
    (he : alookup s.processTable agentId = some e)
    (hsched : e.restartScheduled = false)
    (hstable : e.stableSince ≠ 0) :
    Supervisor.handleCrash s agentId now =
      ({ s with processTable := aupdate s.processTable agentId (fun _ => (amendedCrashStep e now).1) },
       (amendedCrashStep e now).2) := by
  have hstep : crashEntryStep e now = amendedCrashStep e now := by
    unfold crashEntryStep amendedCrashStep claimedCrashStep
    cases hf : e.firstRestartAt with
    | none =>
        simp only [hf, Option.isNone_none, if_true, ne_eq, hstable,
          not_false_eq_true, true_and, Option.getD_some]
    | some t =>
        simp only [hf, Option.isNone_some, Bool.false_eq_true, if_false,
          ne_eq, hstable, not_false_eq_true, true_and, Option.getD_some]
  simp only [Supervisor.handleCrash, he, hsched, Bool.false_eq_true,
    if_false, hstep]

/-- Witness for C6 (amended): a first crash of a freshly stable entry is
scheduled with delay `min(2^1, 300) = 2` seconds. -/
theorem c6_crash_backoff_amended_witness :
    Supervisor.handleCrash { role := "builder", maxActive := 5, tokenBudget := 0, tokensUsed := 0, persist := false, running := true, activeCount := 0, promotionsPaused := false, promotionQueue := [], processTable := [("a", { daemon := { agentId := "a", name := "swarm-builder-000", role := "builder", state := .crashed, currentTask := none, hasProcess := false }, restartCount := 0, firstRestartAt := none, stableSince := 50000, restartScheduled := false })], health := [] } "a" 60000 =
      ({ role := "builder", maxActive := 5, tokenBudget := 0, tokensUsed := 0, persist := false, running := true, activeCount := 0, promotionsPaused := false, promotionQueue := [], processTable := [("a", { daemon := { agentId := "a", name := "swarm-builder-000", role := "builder", state := .crashed, currentTask := none, hasProcess := false }, restartCount := 1, firstRestartAt := some 60000, stableSince := 50000, restartScheduled := true })], health := [] },
       CrashOutcome.scheduled 2) := by
  rw [c6_crash_backoff_amended _ "a" 60000
    { daemon := { agentId := "a", name := "swarm-builder-000", role := "builder", state := .crashed, currentTask := none, hasProcess := false }, restartCount := 0, firstRestartAt := none, stableSince := 50000, restartScheduled := false }
    (by decide) rfl (by decide)]
  rfl

/-! ## Claim C5 — the promotion-queue processor -/

/-- C5: the queue processor does nothing while paused or while the fleet
is at capacity; otherwise it dequeues the head, approves it exactly when
its owner is still `promoting` and discards it otherwise, always leaving
some suffix of the FIFO queue; and it only stops with a non-empty queue
when blocked by capacity or pause. -/
theorem c5_promotion_queue_processor :
    (∀ s : Supervisor, s.promotionsPaused = true →
      s.processPromotionQueue = s) ∧
    (∀ s : Supervisor, s.maxActive ≤ s.activeCount →
      s.processPromotionQueue = s) ∧
    (∀ (s : Supervisor) (req : PromoteReq) (rest : List PromoteReq)
        (e : Entry),
      s.activeCount < s.maxActive → s.promotionsPaused = false →
      alookup s.processTable req.agentId = some e →
      e.daemon.state = DaemonState.promoting →
      Supervisor.processPromotionQueueGo (req :: rest) s =
        Supervisor.processPromotionQueueGo rest
          (s.approveAt req.agentId req.task).1) ∧
    (∀ (s : Supervisor) (req : PromoteReq) (rest : List PromoteReq),
      s.activeCount < s.maxActive → s.promotionsPaused = false →
      (alookup s.processTable req.agentId = none ∨
        ∃ e, alookup s.processTable req.agentId = some e ∧
          e.daemon.state ≠ DaemonState.promoting) →
      Supervisor.processPromotionQueueGo (req :: rest) s =
        Supervisor.processPromotionQueueGo rest s) ∧
    (∀ (q : List PromoteReq) (s : Supervisor),
      (Supervisor.processPromotionQueueGo q s).1 ≠ [] →
      ((Supervisor.processPromotionQueueGo q s).2.maxActive ≤
          (Supervisor.processPromotionQueueGo q s).2.activeCount ∨
        (Supervisor.processPromotionQueueGo q s).2.promotionsPaused = true)) ∧
    (∀ (q : List PromoteReq) (s : Supervisor),
      ∃ k, (Supervisor.processPromotionQueueGo q s).1 = q.drop k) := by
  refine ⟨?_, ?_, ?_, ?_, ?_, ?_⟩
  · intro s hp
    unfold Supervisor.processPromotionQueue
    cases hq : s.promotionQueue with
    | nil =>
        simp only [Supervisor.processPromotionQueueGo]
        rw [← hq]
    | cons r rest =>
        have hc : ¬ (s.activeCount < s.maxActive ∧
            s.promotionsPaused = false) := by
          rintro ⟨-, hpf⟩
          rw [hp] at hpf
          exact Bool.noConfusion hpf
        simp only [Supervisor.processPromotionQueueGo, hc, if_false]
        rw [← hq]
  · intro s ha
    unfold Supervisor.processPromotionQueue
    cases hq : s.promotionQueue with
    | nil =>
        simp only [Supervisor.processPromotionQueueGo]
        rw [← hq]
    | cons r rest =>
        have hc : ¬ (s.activeCount < s.maxActive ∧
            s.promotionsPaused = false) := by
          rintro ⟨hlt, -⟩
          exact absurd ha (not_le.mpr hlt)
        simp only [Supervisor.processPromotionQueueGo, hc, if_false]
        rw [← hq]
  · intro s req rest e hlt hp he hst
    simp only [Supervisor.processPromotionQueueGo, and_true, hp, hlt,
      if_pos (And.intro hlt hp), he, hst, if_true]
  · intro s req rest hlt hp hcase
    rcases hcase with hnone | ⟨e, he, hst⟩
    · simp only [Supervisor.processPromotionQueueGo,
        if_pos (And.intro hlt hp), hnone]
    · simp only [Supervisor.processPromotionQueueGo,
        if_pos (And.intro hlt hp), he, hst, if_false]
  · intro q
    induction q with
    | nil => intro s h; exact absurd rfl h
    | cons r rest ih =>
        intro s h
        by_cases hc : s.activeCount < s.maxActive ∧ s.promotionsPaused = false
        · cases halo : alookup s.processTable r.agentId with
          | none =>
              have hstep : Supervisor.processPromotionQueueGo (r :: rest) s =
                  Supervisor.processPromotionQueueGo rest s := by
                simp only [Supervisor.processPromotionQueueGo, if_pos hc, halo]
              rw [hstep] at h ⊢
              exact ih _ h
          | some e =>
              by_cases hst : e.daemon.state = DaemonState.promoting
              · have hstep : Supervisor.processPromotionQueueGo (r :: rest) s
                    = Supervisor.processPromotionQueueGo rest
                        (s.approveAt r.agentId r.task).1 := by
                  simp only [Supervisor.processPromotionQueueGo, if_pos hc,
                    halo, hst, if_true]
                rw [hstep] at h ⊢
                exact ih _ h
              · have hstep : Supervisor.processPromotionQueueGo (r :: rest) s
                    = Supervisor.processPromotionQueueGo rest s := by
                  simp only [Supervisor.processPromotionQueueGo, if_pos hc,
                    halo, hst, if_false]
                rw [hstep] at h ⊢
                exact ih _ h
        · rw [Supervisor.processPromotionQueueGo, if_neg hc] at h ⊢
          rcases not_and_or.mp hc with hna | hnp
          · exact Or.inl (not_lt.mp hna)
          · exact Or.inr (Bool.not_eq_false _ |>.mp hnp)
  · intro q
    induction q with
    | nil => intro s; exact ⟨0, rfl⟩
    | cons r rest ih =>
        intro s
        by_cases hc : s.activeCount < s.maxActive ∧ s.promotionsPaused = false
        · cases halo : alookup s.processTable r.agentId with
          | none =>
              have hstep : Supervisor.processPromotionQueueGo (r :: rest) s =
                  Supervisor.processPromotionQueueGo rest s := by
                simp only [Supervisor.processPromotionQueueGo, if_pos hc, halo]
              obtain ⟨k, hk⟩ := ih s
              exact ⟨k + 1, by rw [hstep]; simpa using hk⟩
          | some e =>
              by_cases hst : e.daemon.state = DaemonState.promoting
              · have hstep : Supervisor.processPromotionQueueGo (r :: rest) s
                    = Supervisor.processPromotionQueueGo rest
                        (s.approveAt r.agentId r.task).1 := by
                  simp only [Supervisor.processPromotionQueueGo, if_pos hc,
                    halo, hst, if_true]
                obtain ⟨k, hk⟩ := ih (s.approveAt r.agentId r.task).1
                exact ⟨k + 1, by rw [hstep]; simpa using hk⟩
              · have hstep : Supervisor.processPromotionQueueGo (r :: rest) s
                    = Supervisor.processPromotionQueueGo rest s := by
                  simp only [Supervisor.processPromotionQueueGo, if_pos hc,
                    halo, hst, if_false]
                obtain ⟨k, hk⟩ := ih s
                exact ⟨k + 1, by rw [hstep]; simpa using hk⟩
        · rw [Supervisor.processPromotionQueueGo, if_neg hc]
          exact ⟨0, rfl⟩

/-- Witness for C5: a paused supervisor with a queued request is left
untouched by the queue processor. -/
theorem c5_promotion_queue_processor_witness :
    Supervisor.processPromotionQueue { role := "builder", maxActive := 5, tokenBudget := 0, tokensUsed := 0, persist := false, running := true, activeCount := 0, promotionsPaused := true, promotionQueue := [{ agentId := "a", task := none }], processTable := [], health := [] } =
      { role := "builder", maxActive := 5, tokenBudget := 0, tokensUsed := 0, persist := false, running := true, activeCount := 0, promotionsPaused := true, promotionQueue := [{ agentId := "a", task := none }], processTable := [], health := [] } :=
  c5_promotion_queue_processor.1 _ rfl

/-! ## Claim C9 — scale-down selection -/

theorem alookup_mem {β : Type} (t : List (String × β)) (id : String) (v : β)
    (h : alookup t id = some v) : (id, v) ∈ t := by
  induction t with
  | nil => exact absurd h (by simp [alookup_nil])
  | cons p t ih =>
      obtain ⟨k, w⟩ := p
      rw [alookup_cons] at h
      by_cases hk : k = id
      · rw [if_pos hk] at h
        obtain rfl : w = v := Option.some.inj h
        subst hk
        exact List.mem_cons_self _ _
      · rw [if_neg hk] at h
        exact List.mem_cons_of_mem _ (ih h)

theorem alookup_eq_of_mem_nodup {β : Type} (t : List (String × β))
    (id : String) (v : β) (hnd : (t.map Prod.fst).Nodup)
    (hm : (id, v) ∈ t) : alookup t id = some v := by
  induction t with
  | nil => cases hm
  | cons p t ih =>
      obtain ⟨k, w⟩ := p
      rw [alookup_cons]
      rcases List.mem_cons.mp hm with heq | hmem
      · obtain ⟨hk, hw⟩ := Prod.mk.injEq id v k w ▸ heq
        rw [if_pos hk.symm, hw]
      · by_cases hk : k = id
        · exfalso
          have hk1 : k ∉ t.map Prod.fst := (List.nodup_cons.mp (by simpa using hnd)).1
          have : id ∈ t.map Prod.fst :=
            List.mem_map.mpr ⟨(id, v), hmem, rfl⟩
          rw [hk] at hk1
          exact hk1 this
        · rw [if_neg hk]
          exact ih (List.nodup_cons.mp (by simpa using hnd)).2 hmem

theorem sorted_take_drop_le (l : List (String × Entry)) (n : Nat)
    (hs : List.Sorted entryLe l) :
    ∀ a ∈ l.take n, ∀ b ∈ l.drop n, entryLe a b := by
  intro a ha b hb
  have hsplit := List.take_append_drop n l
  rw [← hsplit] at hs
  exact (List.pairwise_append.mp hs).2.2 a ha b hb

/-- C9 counterexample: `scale(0)` with one active daemon satisfies
`T < current`, yet it runs `stop()` and removes the active daemon's entry
from the process table, violating "no daemon with state different from
idle is ever removed". -/
theorem c9_scale_zero_counterexample :
    ({ role := "builder", maxActive := 5, tokenBudget := 0, tokensUsed := 0, persist := false, running := true, activeCount := 1, promotionsPaused := false, promotionQueue := [], processTable := [("a", { daemon := { agentId := "a", name := "swarm-builder-000", role := "builder", state := .active, currentTask := none, hasProcess := true }, restartCount := 0, firstRestartAt := none, stableSince := 5, restartScheduled := false })], health := [] } : Supervisor).processTable.length = 1 ∧
    (alookup ({ role := "builder", maxActive := 5, tokenBudget := 0, tokensUsed := 0, persist := false, running := true, activeCount := 1, promotionsPaused := false, promotionQueue := [], processTable := [("a", { daemon := { agentId := "a", name := "swarm-builder-000", role := "builder", state := .active, currentTask := none, hasProcess := true }, restartCount := 0, firstRestartAt := none, stableSince := 5, restartScheduled := false })], health := [] } : Supervisor).processTable "a").map (fun e => e.daemon.state) = some DaemonState.active ∧
    Supervisor.scale { role := "builder", maxActive := 5, tokenBudget := 0, tokensUsed := 0, persist := false, running := true, activeCount := 1, promotionsPaused := false, promotionQueue := [], processTable := [("a", { daemon := { agentId := "a", name := "swarm-builder-000", role := "builder", state := .active, currentTask := none, hasProcess := true }, restartCount := 0, firstRestartAt := none, stableSince := 5, restartScheduled := false })], health := [] } 0 [] 99 =
      some ({ role := "builder", maxActive := 5, tokenBudget := 0, tokensUsed := 0, persist := false, running := false, activeCount := 0, promotionsPaused := false, promotionQueue := [], processTable := [], health := [] },
        { fromCount := 1, toCount := 0, added := 0, removed := 1 }) := by
  refine ⟨rfl, rfl, rfl⟩

theorem alookup_filter_not_mem {β : Type} (t : List (String × β))
    (rem : List String) (id : String) :
    alookup (t.filter (fun p => ¬ rem.contains p.1)) id =
      if id ∈ rem then none else alookup t id := by
  have h := alookup_filter_key t (fun k => ¬ rem.contains k) id
  simp only [] at h
  rw [h]
  by_cases hm : id ∈ rem
  · have hc : rem.contains id = true := List.elem_iff.mpr hm
    simp [hc, hm]
  · have hc : ¬ rem.contains id = true := fun hx => hm (List.elem_iff.mp hx)
    simp [hc, hm]

theorem c9_scale_down_amended (s : Supervisor) (target : Nat)
    (ids : List String) (now : Nat)
    (hrun : s.running = true) (h0 : 0 < target)
    (hlt : target < s.processTable.length)
    (hnd : (s.processTable.map Prod.fst).Nodup) :
    s.scale target ids now = some (s.scaleDown target) ∧
    ((s.scaleDown target).2).removed =
      min (s.processTable.length - target)
        (s.processTable.filter
          (fun p => p.2.daemon.state = DaemonState.idle)).length ∧
    ((s.scaleDown target).2).removed ≤ s.processTable.length - target ∧
    (∀ id e, alookup s.processTable id = some e →
      e.daemon.state ≠ DaemonState.idle →
      alookup ((s.scaleDown target).1).processTable id = some e) ∧
    (∀ id e, alookup s.processTable id = some e →
      alookup ((s.scaleDown target).1).processTable id = none →
      e.daemon.state = DaemonState.idle) ∧
    (∀ id e id' e', alookup s.processTable id = some e →
      alookup ((s.scaleDown target).1).processTable id = none →
      alookup s.processTable id' = some e' →
      e'.daemon.state = DaemonState.idle →
      (alookup ((s.scaleDown target).1).processTable id').isSome = true →
      e.stableSince ≤ e'.stableSince) := by
  have hscale : s.scale target ids now = some (s.scaleDown target) := by
    unfold Supervisor.scale
    rw [if_neg (by rw [hrun]; exact fun h => Bool.noConfusion h),
      if_neg (Nat.pos_iff_ne_zero.mp h0),
      if_neg (not_lt.mpr (le_of_lt hlt)), if_pos hlt]
  set cand := s.processTable.filter
    (fun p => p.2.daemon.state = DaemonState.idle) with hcand
  set srt := List.insertionSort entryLe cand with hsrt
  set delta := s.processTable.length - target with hdelta
  set toRem := srt.take delta with htoRem
  set remIds := toRem.map (fun p => p.1) with hremIds
  have htable : ((s.scaleDown target).1).processTable =
      s.processTable.filter (fun p => ¬ remIds.contains p.1) := rfl
  have hlook : ∀ id, alookup ((s.scaleDown target).1).processTable id =
      if id ∈ remIds then none else alookup s.processTable id := by
    intro id
    rw [htable]
    exact alookup_filter_not_mem _ _ id
  have hremoved_mem : ∀ id e, alookup s.processTable id = some e →
      alookup ((s.scaleDown target).1).processTable id = none →
      (id, e) ∈ toRem := by
    intro id e he hn
    rw [hlook id] at hn
    by_cases hm : id ∈ remIds
    · obtain ⟨x, hx, hxid⟩ := List.mem_map.mp hm
      obtain ⟨x1, x2⟩ := x
      simp only [] at hxid
      have hxc : (x1, x2) ∈ cand :=
        (List.mem_insertionSort entryLe).mp (List.take_subset _ _ hx)
      have hxt : (x1, x2) ∈ s.processTable := (List.mem_filter.mp hxc).1
      have hax : alookup s.processTable x1 = some x2 :=
        alookup_eq_of_mem_nodup s.processTable x1 x2 hnd hxt
      rw [hxid, he] at hax
      obtain rfl : x2 = e := (Option.some.inj hax).symm
      rw [← hxid]
      exact hx
    · rw [if_neg hm, he] at hn
      cases hn
  have hmem_idle : ∀ id e, (id, e) ∈ toRem →
      e.daemon.state = DaemonState.idle := by
    intro id e hm
    have hxc : (id, e) ∈ cand :=
      (List.mem_insertionSort entryLe).mp (List.take_subset _ _ hm)
    have := (List.mem_filter.mp hxc).2
    exact of_decide_eq_true this
  refine ⟨hscale, ?_, ?_, ?_, ?_, ?_⟩
  · show toRem.length = min delta cand.length
    rw [htoRem, List.length_take, (List.perm_insertionSort entryLe cand).length_eq]
  · show toRem.length ≤ delta
    rw [htoRem, List.length_take]
    exact Nat.min_le_left _ _
  · intro id e he hne
    rw [hlook id]
    by_cases hm : id ∈ remIds
    · exfalso
      obtain ⟨x, hx, hxid⟩ := List.mem_map.mp hm
      obtain ⟨x1, x2⟩ := x
      simp only [] at hxid
      have hxc : (x1, x2) ∈ cand :=
        (List.mem_insertionSort entryLe).mp (List.take_subset _ _ hx)
      have hxt : (x1, x2) ∈ s.processTable := (List.mem_filter.mp hxc).1
      have hax : alookup s.processTable x1 = some x2 :=
        alookup_eq_of_mem_nodup s.processTable x1 x2 hnd hxt
      rw [hxid, he] at hax
      obtain rfl : x2 = e := (Option.some.inj hax).symm
      exact hne (hmem_idle x1 x2 hx)
    · rw [if_neg hm]
      exact he
  · intro id e he hn
    exact hmem_idle id e (hremoved_mem id e he hn)
  · intro id e id' e' he hn he' hidle hkeep
    have hmem : (id, e) ∈ toRem := hremoved_mem id e he hn
    have hkeepne : id' ∉ remIds := by
      intro hm
      rw [hlook id', if_pos hm] at hkeep
      simp at hkeep
    have hmem' : (id', e') ∈ cand :=
      List.mem_filter.mpr ⟨alookup_mem _ _ _ he', by simp [hidle]⟩
    have hsrt' : (id', e') ∈ srt := (List.mem_insertionSort entryLe).mpr hmem'
    have hnotTake : (id', e') ∉ toRem := fun hx =>
      hkeepne (List.mem_map.mpr ⟨(id', e'), hx, rfl⟩)
    have hdrop : (id', e') ∈ srt.drop delta := by
      rcases List.mem_append.mp
          (by rw [List.take_append_drop]; exact hsrt' :
            (id', e') ∈ srt.take delta ++ srt.drop delta) with h | h
      · exact absurd h hnotTake
      · exact h
    exact sorted_take_drop_le srt delta
      (List.sorted_insertionSort entryLe cand) (id, e) hmem (id', e') hdrop

/-- Witness for C9 (amended): a 2-daemon fleet (one active, one idle)
scaled to 1 removes exactly the idle daemon and keeps the active entry
untouched. -/
theorem c9_scale_down_amended_witness :
    Supervisor.scale { role := "builder", maxActive := 5, tokenBudget := 0, tokensUsed := 0, persist := false, running := true, activeCount := 1, promotionsPaused := false, promotionQueue := [], processTable := [("a", { daemon := { agentId := "a", name := "swarm-builder-000", role := "builder", state := .active, currentTask := none, hasProcess := true }, restartCount := 0, firstRestartAt := none, stableSince := 5, restartScheduled := false }), ("b", { daemon := { agentId := "b", name := "swarm-builder-001", role := "builder", state := .idle, currentTask := none, hasProcess := false }, restartCount := 0, firstRestartAt := none, stableSince := 3, restartScheduled := false })], health := [] } 1 [] 99 =
      some (Supervisor.scaleDown { role := "builder", maxActive := 5, tokenBudget := 0, tokensUsed := 0, persist := false, running := true, activeCount := 1, promotionsPaused := false, promotionQueue := [], processTable := [("a", { daemon := { agentId := "a", name := "swarm-builder-000", role := "builder", state := .active, currentTask := none, hasProcess := true }, restartCount := 0, firstRestartAt := none, stableSince := 5, restartScheduled := false }), ("b", { daemon := { agentId := "b", name := "swarm-builder-001", role := "builder", state := .idle, currentTask := none, hasProcess := false }, restartCount := 0, firstRestartAt := none, stableSince := 3, restartScheduled := false })], health := [] } 1) ∧
    alookup ((Supervisor.scaleDown { role := "builder", maxActive := 5, tokenBudget := 0, tokensUsed := 0, persist := false, running := true, activeCount := 1, promotionsPaused := false, promotionQueue := [], processTable := [("a", { daemon := { agentId := "a", name := "swarm-builder-000", role := "builder", state := .active, currentTask := none, hasProcess := true }, restartCount := 0, firstRestartAt := none, stableSince := 5, restartScheduled := false }), ("b", { daemon := { agentId := "b", name := "swarm-builder-001", role := "builder", state := .idle, currentTask := none, hasProcess := false }, restartCount := 0, firstRestartAt := none, stableSince := 3, restartScheduled := false })], health := [] } 1).1).processTable "a" =
      some { daemon := { agentId := "a", name := "swarm-builder-000", role := "builder", state := .active, currentTask := none, hasProcess := true }, restartCount := 0, firstRestartAt := none, stableSince := 5, restartScheduled := false } := by
  have h := c9_scale_down_amended { role := "builder", maxActive := 5, tokenBudget := 0, tokensUsed := 0, persist := false, running := true, activeCount := 1, promotionsPaused := false, promotionQueue := [], processTable := [("a", { daemon := { agentId := "a", name := "swarm-builder-000", role := "builder", state := .active, currentTask := none, hasProcess := true }, restartCount := 0, firstRestartAt := none, stableSince := 5, restartScheduled := false }), ("b", { daemon := { agentId := "b", name := "swarm-builder-001", role := "builder", state := .idle, currentTask := none, hasProcess := false }, restartCount := 0, firstRestartAt := none, stableSince := 3, restartScheduled := false })], health := [] } 1 [] 99 rfl (by decide) (by decide) (by decide)
  exact ⟨h.1, h.2.2.2.1 "a" { daemon := { agentId := "a", name := "swarm-builder-000", role := "builder", state := .active, currentTask := none, hasProcess := true }, restartCount := 0, firstRestartAt := none, stableSince := 5, restartScheduled := false } rfl (by decide)⟩


/-! ## Claim C1 — the crash-recovery timer body -/

/-- C1: the timer body checks `entry.daemon.state === ACTIVE` only after
`entry.daemon.stop()` has already reset the state to `idle`, so
`activeCount` is never decremented — for any input at all — although the
rest of the step (stop, health unregister, table delete, respawn under the
same name, burst-counter copy, `stableSince = now`) behaves as the claim
says. The concrete run exhibits a crashed-while-active daemon whose
recovery leaves `activeCount` at 1. -/
theorem c1_crash_restart_never_decrements :
    (∀ (s : Supervisor) (agentId : String) (entry : Entry) (newId : String)
      (now : Nat),
      ((s.restartFire agentId entry newId now)).activeCount =
        s.activeCount) ∧
    ({ daemon := { agentId := "a", name := "swarm-builder-000", role := "builder", state := .active, currentTask := none, hasProcess := true }, restartCount := 2, firstRestartAt := some 1000, stableSince := 2000, restartScheduled := true } : Entry).daemon.state = DaemonState.active ∧
    Supervisor.restartFire { role := "builder", maxActive := 5, tokenBudget := 0, tokensUsed := 0, persist := false, running := true, activeCount := 1, promotionsPaused := false, promotionQueue := [], processTable := [("a", { daemon := { agentId := "a", name := "swarm-builder-000", role := "builder", state := .active, currentTask := none, hasProcess := true }, restartCount := 2, firstRestartAt := some 1000, stableSince := 2000, restartScheduled := true })], health := [("a", { lastSeen := 0, status := .alive, consecutiveMisses := 0, pid := none, memoryMb := none, cpuPct := none, uptimeSeconds := 0, registeredAt := 0 })] } "a"
      { daemon := { agentId := "a", name := "swarm-builder-000", role := "builder", state := .active, currentTask := none, hasProcess := true }, restartCount := 2, firstRestartAt := some 1000, stableSince := 2000, restartScheduled := true } "a2" 9000 =
      { role := "builder", maxActive := 5, tokenBudget := 0, tokensUsed := 0, persist := false, running := true, activeCount := 1, promotionsPaused := false, promotionQueue := [], processTable := [("a2", { daemon := { agentId := "a2", name := "swarm-builder-000", role := "builder", state := .idle, currentTask := none, hasProcess := false }, restartCount := 2, firstRestartAt := some 1000, stableSince := 9000, restartScheduled := false })], health := [("a2", { lastSeen := 9000, status := .alive, consecutiveMisses := 0, pid := none, memoryMb := none, cpuPct := none, uptimeSeconds := 0, registeredAt := 9000 })] } := by
  refine ⟨?_, rfl, by rfl⟩
  intro s agentId entry newId now
  cases hr : s.running with
  | false =>
      unfold Supervisor.restartFire
      rw [if_pos hr]
  | true =>
      have hr' : ¬ s.running = false := by rw [hr]; exact fun h => Bool.noConfusion h
      unfold Supervisor.restartFire
      rw [if_neg hr']
      simp only [Daemon.stop, Supervisor.spawnDaemon, HealthMonitor.register,
        HealthMonitor.unregister]
      rfl

end AgentSwarm
